import Mathlib

/-!
Shallow embedding of the aws-cost-analyzer repository (Python) in Lean 4,
used to settle the claims about its specification.

The repository contains two parallel implementations of the enrichment
pipeline: the legacy `src/repository.py` and the clean-architecture variant
under `src/infrastructure/aws/aws_cost_repository.py` together with
`src/domain/value_objects/metrics.py` and `src/application/cost_analyzer.py`.
Both are embedded here; each definition's doc comment names the Python
function it models.

Python floats and `Decimal` values are embedded as exact rationals (`ℚ`);
the mixed "number or the string sentinel N/A" values that the legacy code
passes around are embedded as `PyVal`.
-/

set_option linter.all false
set_option maxRecDepth 100000

namespace AwsCostAnalyzer

/-- Models a Python value that is either the string sentinel `'N/A'` or a
number (floats embedded as exact rationals). -/
inductive PyVal where
  | na : PyVal
  | num (q : ℚ) : PyVal
deriving DecidableEq

/-- Floor of a rational, computed directly on its numerator and denominator
so that kernel reduction works. -/
def ratFloor (q : ℚ) : ℤ := Int.fdiv q.num (q.den : ℤ)

/-- Rounding to the nearest integer, halves up. Python's `round` and format
specifiers round halves to even on binary floats; no half-case arises in any
claim, so this exact-rational model uses the simpler half-up rule. -/
def roundHalfUp (q : ℚ) : ℤ := ratFloor (q + 1/2)

/-- Models Python `round(x, 2)` (exact-rational version: round `x*100` to an
integer and divide back by 100). -/
def round2 (q : ℚ) : ℚ := ((roundHalfUp (q * 100) : ℤ) : ℚ) / 100

/-- Models Python `int(x)` on a float: truncation toward zero. -/
def pyIntTrunc (q : ℚ) : ℤ := Int.tdiv q.num (q.den : ℤ)

/-- Left-pads a decimal-digit string with zeros up to width `k`. -/
def padZeros (s : String) (k : Nat) : String :=
  String.mk (List.replicate (k - s.length) '0') ++ s

/-- Models Python fixed-point formatting `f"{q:.dgts f}"`: round `q` to
`dgts` decimal places and print all `dgts` digits after the point. -/
def formatFixed (dgts : Nat) (q : ℚ) : String :=
  let p : ℤ := roundHalfUp (q * ((10 : ℚ) ^ dgts))
  let sign := if p < 0 then "-" else ""
  let n := p.natAbs
  sign ++ toString (n / 10 ^ dgts) ++ "." ++ padZeros (toString (n % 10 ^ dgts)) dgts

/-- Models the `f"...x:.1f..."` one-decimal formatting used in sizing messages. -/
def format1 (q : ℚ) : String := formatFixed 1 q

/-- Models the `f"...price:.4f..."` four-decimal price formatting in `get_rds_price`. -/
def format4 (q : ℚ) : String := formatFixed 4 q

/-- Decides whether the second character list is a prefix of the first. -/
def charListStarts : List Char → List Char → Bool
  | _, [] => true
  | [], _ :: _ => false
  | c :: cs, d :: ds => c == d && charListStarts cs ds

/-- Models the Python substring test `pat in s`. -/
def containsSub (s pat : String) : Bool :=
  (List.range (s.data.length + 1)).any fun i => charListStarts (s.data.drop i) pat.data

/-- Decides whether a character is an ASCII decimal digit. -/
def isDigitChar (c : Char) : Bool := '0' ≤ c && c ≤ '9'

/-- Numeric value of an ASCII decimal digit. -/
def digitVal (c : Char) : ℕ := c.toNat - '0'.toNat

/-- Splits a character list into its longest digit prefix and the rest. -/
def takeDigits : List Char → (List Char × List Char)
  | [] => ([], [])
  | c :: cs =>
    if isDigitChar c then
      let p := takeDigits cs
      (c :: p.1, p.2)
    else ([], c :: cs)

/-- Value of a list of decimal digits. -/
def digitsToNat (ds : List Char) : ℕ := ds.foldl (fun a c => a * 10 + digitVal c) 0

/-- Models Python `float(s)` restricted to plain decimal literals
(optional sign, integer digits, optional fractional part; at least one
digit), the only shapes the repository feeds it; anything else — the
`ValueError` case — is `none`. -/
def parseFloatQ (s : String) : Option ℚ :=
  let step1 : ℚ × List Char :=
    match s.data with
    | '-' :: rest => (-1, rest)
    | '+' :: rest => (1, rest)
    | cs => (1, cs)
  let ipSplit := takeDigits step1.2
  match ipSplit.2 with
  | [] => if ipSplit.1 = [] then none else some (step1.1 * digitsToNat ipSplit.1)
  | '.' :: rest =>
    let fpSplit := takeDigits rest
    if fpSplit.2 = [] ∧ (ipSplit.1 ≠ [] ∨ fpSplit.1 ≠ []) then
      some (step1.1 * ((digitsToNat ipSplit.1 : ℚ) +
        (digitsToNat fpSplit.1 : ℚ) / ((10 : ℚ) ^ fpSplit.1.length)))
    else none
  | _ => none

/-! ## Engine-name normalization (VocabularyNormalizer) -/

/-- Models `AWSCostRepository.ENGINE_MAPPING` (src/repository.py lines 24–31;
the identical dict appears in src/infrastructure/aws/aws_cost_repository.py
lines 11–18) as an ordered association list — Python dicts iterate in
insertion order. -/
def ENGINE_MAPPING : List (String × String) :=
  [("postgres", "PostgreSQL"),
   ("aurora-postgresql", "Aurora PostgreSQL"),
   ("mysql", "MySQL"),
   ("mariadb", "MariaDB"),
   ("oracle-se2", "Oracle"),
   ("sqlserver-se", "SQL Server")]

/-- Models the engine normalization used by `get_rds_price` and
`get_instance_specs` (src/repository.py 204–207, 323–326):
`next((v for k, v in ENGINE_MAPPING.items() if k in engine.lower()), engine)`
— the value of the first key that is a substring of the lower-cased engine,
or the raw engine unchanged. -/
def normalizeEngine (engine : String) : String :=
  match ENGINE_MAPPING.find? (fun kv => containsSub engine.toLower kv.1) with
  | some kv => kv.2
  | none => engine

/-! ## Pricing (PricingResolver) -/

/-- Price-dimension `pricePerUnit.USD` strings of one on-demand term key, in
iteration order. -/
abbrev TermKey := List String

/-- Models one decoded entry of the pricing API's `PriceList`: its on-demand
term keys, each carrying its price-dimension price strings. -/
abbrev PriceItem := List TermKey

/-- Models the inner price-dimension loop of `get_rds_price`
(src/repository.py 226–234): parse each price string with `','` replaced by
`'.'`; return at the first strictly positive parse; parse failures are
swallowed (`except (ValueError, TypeError): pass`). -/
def scanDims : List String → Option ℚ
  | [] => none
  | s :: rest =>
    match parseFloatQ (s.replace "," ".") with
    | some p => if 0 < p then some p else scanDims rest
    | none => scanDims rest

/-- Models the outer on-demand key loop of `get_rds_price`
(src/repository.py 225): keys are scanned in order until a dimension returns. -/
def scanKeys : List TermKey → Option ℚ
  | [] => none
  | k :: rest =>
    match scanDims k with
    | some p => some p
    | none => scanKeys rest

/-- Models `AWSCostRepository.get_rds_price` (src/repository.py 199–238).
The pricing query (engine/region normalization, filters, `MaxResults=1`) and
JSON decoding are abstracted into `resp`: `.error` when anything in the
`try` block raises, `.ok l` for a successful call whose `PriceList` is `l`;
only the first list entry is read, matching `response['PriceList'][0]`.
Returns the `f"{price:.4f}"` string or the sentinel `'N/A'`. -/
def getRdsPrice (resp : Except Unit (List PriceItem)) : String :=
  match resp with
  | .error _ => "N/A"
  | .ok [] => "N/A"
  | .ok (item :: _) =>
    match scanKeys item with
    | some p => format4 p
    | none => "N/A"

/-- Models `AWSCostRepository._get_instance_price`
(src/infrastructure/aws/aws_cost_repository.py 221–282).  `strict` and
`fallback` are the two pricing responses (full filters, and the retry without
the deployment option, issued only when the first `PriceList` is empty).
Only the first item's first on-demand key's first price dimension is read
(`next(iter(...))`); a missing key/dimension raises `StopIteration` and a bad
price string fails `Decimal(price)` — every failure path, including a raised
API call, returns `Decimal('0')`. -/
def getInstancePrice (strict fallback : Except Unit (List PriceItem)) : ℚ :=
  match strict with
  | .error _ => 0
  | .ok l =>
    match (if l.isEmpty then fallback else .ok l) with
    | .error _ => 0
    | .ok [] => 0
    | .ok (item :: _) =>
      match item with
      | [] => 0
      | key :: _ =>
        match key with
        | [] => 0
        | s :: _ =>
          match parseFloatQ s with
          | some p => p
          | none => 0

/-! ## Max connections -/

/-- Result of `get_max_connections`: the sentinel `'N/A'` or a Python int. -/
inductive ConnVal where
  | na : ConnVal
  | val (z : ℤ) : ConnVal
deriving DecidableEq

/-- Models `AWSCostRepository.get_max_connections` (src/repository.py
240–251): `memory_bytes = memory_gb * 1024**3`,
`connections = memory_bytes / 25165760` (the source's comment says
"24MB per connection"), `min(int(connections), 12000)`; non-numeric input
gives `'N/A'`. -/
def getMaxConnections : PyVal → ConnVal
  | .na => .na
  | .num m => .val (min (pyIntTrunc (m * 1024 ^ 3 / 25165760)) 12000)

/-- Models `AWSCostRepository._calculate_max_connections`
(src/infrastructure/aws/aws_cost_repository.py 284–288): 0 when
`memory_gb <= 0`, else `int(memory_gb * 100)` — 100 connections per GB. -/
def calculateMaxConnections (m : ℚ) : ℤ :=
  if m ≤ 0 then 0 else pyIntTrunc (m * 100)

/-- Written from the claim's words, for comparison with the code:
`min(floor(memory_gb * 2^30 / 25165824), 12000)` — 24 MiB
(25,165,824 bytes) reserved per connection slot, capped at 12,000. -/
def claimedMaxConnections (m : ℚ) : ℤ :=
  min (ratFloor (m * 2 ^ 30 / 25165824)) 12000

/-! ## Utilization metrics (UtilizationResolver) -/

/-- Models the per-metric result processing inside `get_rds_utilization`
(src/repository.py 287–295): the metric keeps its initial `'N/A'` when the
returned `Values` list is empty; otherwise it becomes the average of all
samples — divided by `2^30` first when the metric is byte-valued
(`FreeableMemory`, `FreeStorageSpace`) — rounded to 2 decimals. -/
def processMetric (isBytes : Bool) (values : List ℚ) : PyVal :=
  match values with
  | [] => .na
  | _ =>
    let avg := values.sum / (values.length : ℚ)
    if isBytes then .num (round2 (avg / 2 ^ 30)) else .num (round2 avg)

/-- The four `Values` lists of the single `get_metric_data` response used by
`get_rds_utilization`, in the order of its `metrics` dict. -/
structure UtilizationValues where
  cpu : List ℚ
  connections : List ℚ
  freeMemory : List ℚ
  freeStorage : List ℚ

/-- The four metric results returned by `get_rds_utilization`. -/
structure UtilizationResult where
  cpu : PyVal
  connections : PyVal
  freeMemory : PyVal
  freeStorage : PyVal
deriving DecidableEq

/-- Models the result loop of `AWSCostRepository.get_rds_utilization`
(src/repository.py 253–300) on a successful `get_metric_data` call:
each metric is processed from its own `Values` list. -/
def getRdsUtilization (v : UtilizationValues) : UtilizationResult :=
  { cpu := processMetric false v.cpu
    connections := processMetric false v.connections
    freeMemory := processMetric true v.freeMemory
    freeStorage := processMetric true v.freeStorage }

/-- Models `get_rds_utilization` including its `try/except`: when the
`get_metric_data` call raises, every metric keeps its initial `'N/A'`. -/
def getRdsUtilizationRun : Except Unit UtilizationValues → UtilizationResult
  | .error _ => ⟨.na, .na, .na, .na⟩
  | .ok v => getRdsUtilization v

/-- Models one metric of `AWSCostRepository._get_instance_metrics`
(src/infrastructure/aws/aws_cost_repository.py 129–169): each metric issues
its own `get_metric_statistics` call (`.error` when it raises, caught per
metric).  No datapoints gives the default 0; otherwise the average of the
strictly positive samples (sorting by timestamp does not change it), or the
default 0 when none is positive.  The result is a plain number — this
variant has no unavailable marker. -/
def getInstanceMetricsOne (datapoints : Except Unit (List ℚ)) : ℚ :=
  match datapoints with
  | .error _ => 0
  | .ok [] => 0
  | .ok dps =>
    match dps.filter (fun x => 0 < x) with
    | [] => 0
    | valid => valid.sum / (valid.length : ℚ)

/-! ## Sizing evaluation (SizingEvaluator) -/

/-- Models the CPU branch of `evaluate_instance_sizing`
(src/repository.py 154–163). -/
def evalCpuRepo : PyVal → String
  | .na => "CPU: Insufficient Data"
  | .num c =>
    if 80 < c then "CPU: High Usage"
    else if c < 20 then "CPU: Low Usage"
    else "CPU: Optimal"

/-- Models the memory branch of `evaluate_instance_sizing`
(src/repository.py 165–179): non-numeric input gives "Insufficient Data";
the `ZeroDivisionError` raised when the numeric total is 0 is caught by the
`except` and becomes "Memory: Calculation Error"; otherwise the free
percentage is classified at 5 and 15 with a one-decimal message. -/
def evalMemRepo : PyVal → PyVal → String
  | .num f, .num t =>
    if t = 0 then "Memory: Calculation Error"
    else
      let pct := f / t * 100
      if pct < 5 then "Memory: Critically Low (" ++ format1 pct ++ "% free)"
      else if pct < 15 then "Memory: Low (" ++ format1 pct ++ "% free)"
      else "Memory: Optimal (" ++ format1 pct ++ "% free)"
  | _, _ => "Memory: Insufficient Data"

/-- Models the storage branch of `evaluate_instance_sizing`
(src/repository.py 181–195): same shape as memory with thresholds 10 and 25. -/
def evalStorageRepo : PyVal → PyVal → String
  | .num f, .num t =>
    if t = 0 then "Storage: Calculation Error"
    else
      let pct := f / t * 100
      if pct < 10 then "Storage: Critically Low (" ++ format1 pct ++ "% free)"
      else if pct < 25 then "Storage: Low (" ++ format1 pct ++ "% free)"
      else "Storage: Optimal (" ++ format1 pct ++ "% free)"
  | _, _ => "Storage: Insufficient Data"

/-- Models `AWSCostRepository.evaluate_instance_sizing`
(src/repository.py 151–197): the three evaluations joined with " | ". -/
def evaluateInstanceSizing (cpu memFree memTotal storFree storTotal : PyVal) : String :=
  evalCpuRepo cpu ++ " | " ++ evalMemRepo memFree memTotal ++ " | " ++
    evalStorageRepo storFree storTotal

/-- Models `DatabaseMetrics.evaluate_memory`
(src/domain/value_objects/metrics.py 19–28): `if not total_memory_gb` — the
Python falsiness test — maps a total of 0 to "Memory: Insufficient Data";
the inputs of this variant are typed floats, so no unavailable marker (and
no `try/except`) exists here. -/
def evaluateMemoryVO (freeMemoryGb totalMemoryGb : ℚ) : String :=
  if totalMemoryGb = 0 then "Memory: Insufficient Data"
  else
    let pct := freeMemoryGb / totalMemoryGb * 100
    if pct < 5 then "Memory: Critically Low (" ++ format1 pct ++ "% free)"
    else if pct < 15 then "Memory: Low (" ++ format1 pct ++ "% free)"
    else "Memory: Optimal (" ++ format1 pct ++ "% free)"

/-- Models `CostAnalyzer._evaluate_storage`
(src/application/cost_analyzer.py 102–114): non-numeric input gives
"Storage: Insufficient Data"; the division error at a numeric total of 0 is
caught and gives "Storage: Calculation Error". -/
def evaluateStorageCA : PyVal → PyVal → String
  | .num f, .num t =>
    if t = 0 then "Storage: Calculation Error"
    else
      let pct := f / t * 100
      if pct < 10 then "Storage: Critically Low (" ++ format1 pct ++ "% free)"
      else if pct < 25 then "Storage: Low (" ++ format1 pct ++ "% free)"
      else "Storage: Optimal (" ++ format1 pct ++ "% free)"
  | _, _ => "Storage: Insufficient Data"

/-! ## Memory-string parsing -/

/-- Result of `_convert_to_gb`: a Python float on success, or the Python int
literal `0` returned on `ValueError`/`IndexError`; the two are
distinguishable by `isinstance(x, float)`, which the caller exploits. -/
inductive MemParse where
  | pyFloat (q : ℚ) : MemParse
  | pyIntZero : MemParse
deriving DecidableEq

/-- Numeric value of a `_convert_to_gb` result — the Python int `0` is the
number 0. -/
def MemParse.value : MemParse → ℚ
  | .pyFloat q => q
  | .pyIntZero => 0

/-- Models `AWSCostRepository._convert_to_gb` (src/repository.py 302–316):
lower-case, split on single spaces, parse the first token with `','`
removed; the unit is the second token when present, else `'gib'`; a unit
containing `'tib'` multiplies by 1024, one containing `'mib'` divides by
1024, anything else is taken as GiB; a failed parse (`ValueError`) returns
the Python int `0`. -/
def convertToGb (value : String) : MemParse :=
  let v := value.toLower
  let parts := v.splitOn " "
  match parseFloatQ ((parts.headD "").replace "," "") with
  | none => .pyIntZero
  | some number =>
    let unit := parts.getD 1 "gib"
    if containsSub unit "tib" then .pyFloat (number * 1024)
    else if containsSub unit "mib" then .pyFloat (number / 1024)
    else .pyFloat number

/-- Models the memory field assembled by `get_instance_specs`
(src/repository.py 341–356): `round(memory_gb, 2) if
isinstance(memory_gb, float) else 'N/A'` — the int `0` from a failed parse
becomes the sentinel `'N/A'`. -/
def specsMemoryField (memoryStr : String) : PyVal :=
  match convertToGb memoryStr with
  | .pyFloat q => .num (round2 q)
  | .pyIntZero => .na

/-! ## Cost aggregation (CostAggregator) -/

/-- Models `service_costs[name] += amount` on the `defaultdict(Decimal)` in
`analyze_costs`: an ordered association list in first-occurrence order,
updated in place. -/
def addAmount : List (String × ℚ) → String → ℚ → List (String × ℚ)
  | [], name, amount => [(name, amount)]
  | g :: rest, name, amount =>
    if g.1 = name then (g.1, g.2 + amount) :: rest
    else g :: addAmount rest name amount

/-- Models the filter test of `analyze_costs`
(src/application/cost_analyzer.py 23):
`if not service_filter or cost.service_name in service_filter` — `None` and
the empty list are both falsy, so both admit every service. -/
def passesFilter (fil : Option (List String)) (name : String) : Bool :=
  match fil with
  | none => true
  | some l => l.isEmpty || l.contains name

/-- One output row of `analyze_costs` (`Decimal`/float amounts embedded as
exact rationals, so the `float(...)` conversions are the identity). -/
structure CostRow where
  service : String
  total : ℚ
  dailyAverage : ℚ
deriving DecidableEq

/-- Models `CostAnalyzer.analyze_costs` (src/application/cost_analyzer.py
12–45) after the repository call: fold over the line items accumulating the
per-service groups and the running `total_cost` of every included amount;
emit one row per service with `round(float(total)/days, 2)` as the daily
average; append the TOTAL row only when the result list is non-empty
(`if result:`). -/
def analyzeCosts (days : ℕ) (fil : Option (List String))
    (costs : List (String × ℚ)) : List CostRow :=
  let state := costs.foldl
    (fun (st : List (String × ℚ) × ℚ) c =>
      if passesFilter fil c.1 then (addAmount st.1 c.1 c.2, st.2 + c.2) else st)
    ([], 0)
  let rows := state.1.map fun g => CostRow.mk g.1 g.2 (round2 (g.2 / (days : ℚ)))
  if rows.isEmpty then rows
  else rows ++ [CostRow.mk "TOTAL" state.2 (round2 (state.2 / (days : ℚ)))]

/-- Spec-side helper naming the grouping of the included line items: the
association list produced by folding `addAmount` over the items that pass
the filter. -/
def includedGroups (fil : Option (List String)) (costs : List (String × ℚ)) :
    List (String × ℚ) :=
  (costs.filter (fun c => passesFilter fil c.1)).foldl
    (fun g c => addAmount g c.1 c.2) []

/-- Parse of one price-dimension string exactly as `get_rds_price` performs
it (comma replaced by dot), kept only when strictly positive. -/
def dimPos (s : String) : Option ℚ :=
  match parseFloatQ (s.replace "," ".") with
  | some p => if 0 < p then some p else none
  | none => none

/-- Spec-side description of the price scan: the strictly positive parses of
a price item's dimension strings, in iteration order. -/
def posParses (item : PriceItem) : List ℚ :=
  item.join.filterMap dimPos

/-! ## Instance-discovery pipeline -/

/-- Contribution of one region to the final instance list of
`get_database_instances`: nothing when its `describe_db_instances` call
raises, otherwise one enriched record per listed instance. -/
def regionContribution (enrich : String → α → β)
    (r : String × Except Unit (List α)) : List β :=
  match r.2 with
  | .error _ => []
  | .ok dbs => dbs.map (enrich r.1)

/-- Models the region loop of `AWSCostRepository.get_database_instances`
(src/repository.py 80–149) in an exception-passing semantics.  Each region's
body — the `describe_db_instances` call followed by per-instance enrichment
(lines 94–143, passed as `enrich` since its internals are modelled by the
separate resolver definitions) — may raise; the `try/except Exception` of
lines 93–146 catches the raise and keeps the instances collected so far.  An
exception that escaped the loop would abort the whole run with `.error`. -/
def pipelineGo (enrich : String → α → β) (acc : List β) :
    List (String × Except Unit (List α)) → Except Unit (List β)
  | [] => .ok acc
  | r :: rest =>
    match Except.tryCatch
        (do
          let dbs ← r.2
          pure (acc ++ dbs.map (enrich r.1)))
        (fun _ => pure acc) with
    | .ok acc2 => pipelineGo enrich acc2 rest
    | .error e => .error e

/-- Models `get_database_instances` itself: run the region loop on an empty
accumulator. -/
def getDatabaseInstancesE (enrich : String → α → β)
    (regions : List (String × Except Unit (List α))) : Except Unit (List β) :=
  pipelineGo enrich [] regions

/-! ## Helper lemmas -/

/-- A price returned by the dimension scan of `get_rds_price` is strictly
positive. -/
theorem scanDims_pos (l : List String) (p : ℚ) (h : scanDims l = some p) :
    0 < p := by
  induction l with
  | nil => simp [scanDims] at h
  | cons s rest ih =>
    simp only [scanDims] at h
    split at h
    · split at h
      · cases h
        assumption
      · exact ih h
    · exact ih h

/-- A price returned by the on-demand key scan of `get_rds_price` is
strictly positive. -/
theorem scanKeys_pos (item : PriceItem) (p : ℚ) (h : scanKeys item = some p) :
    0 < p := by
  induction item with
  | nil => simp [scanKeys] at h
  | cons k rest ih =>
    simp only [scanKeys] at h
    split at h
    · cases h
      exact scanDims_pos k _ (by assumption)
    · exact ih h

/-- Unfolding of `posParses` over the first on-demand key. -/
theorem posParses_cons (k : TermKey) (rest : PriceItem) :
    posParses (k :: rest) = k.filterMap dimPos ++ posParses rest := by
  simp [posParses]

/-- The dimension scan returns the first strictly positive parse. -/
theorem scanDims_eq_head (l : List String) :
    scanDims l = (l.filterMap dimPos).head? := by
  induction l with
  | nil => rfl
  | cons s rest ih =>
    simp only [scanDims, List.filterMap_cons]
    cases hp : parseFloatQ (s.replace "," ".") with
    | none => simp [dimPos, hp, ih]
    | some q =>
      by_cases hq : 0 < q
      · simp [dimPos, hp, hq]
      · simp [dimPos, hp, hq, ih]

/-- The key scan of `get_rds_price` returns the first strictly positive
parse across all price dimensions, in iteration order. -/
theorem scanKeys_eq_head (item : PriceItem) :
    scanKeys item = (posParses item).head? := by
  induction item with
  | nil => rfl
  | cons k rest ih =>
    simp only [scanKeys, posParses_cons]
    rw [scanDims_eq_head]
    cases hfk : k.filterMap dimPos with
    | nil => simpa using ih
    | cons q qs => simp

/-- Updating one service's total adds the amount to the sum of all totals. -/
theorem addAmount_snd_sum (g : List (String × ℚ)) (name : String) (amount : ℚ) :
    ((addAmount g name amount).map Prod.snd).sum = (g.map Prod.snd).sum + amount := by
  induction g with
  | nil => simp [addAmount]
  | cons p rest ih =>
    by_cases h : p.1 = name
    · simp [addAmount, h]
      ring
    · simp [addAmount, h, ih]
      ring

/-- Folding `addAmount` over line items adds the sum of their amounts to the
sum of the group totals. -/
theorem foldl_addAmount_sum (items : List (String × ℚ)) (g : List (String × ℚ)) :
    (((items.foldl (fun gg c => addAmount gg c.1 c.2) g)).map Prod.snd).sum =
      (g.map Prod.snd).sum + (items.map Prod.snd).sum := by
  induction items generalizing g with
  | nil => simp
  | cons c rest ih =>
    simp only [List.foldl_cons, List.map_cons, List.sum_cons, ih, addAmount_snd_sum]
    ring

/-- The accumulating fold of `analyze_costs` computes the `addAmount`
grouping of the filtered items together with the sum of their amounts. -/
theorem analyzeCosts_foldl_eq (fil : Option (List String))
    (costs : List (String × ℚ)) (g : List (String × ℚ)) (t : ℚ) :
    costs.foldl
      (fun (st : List (String × ℚ) × ℚ) c =>
        if passesFilter fil c.1 then (addAmount st.1 c.1 c.2, st.2 + c.2) else st)
      (g, t) =
    ((costs.filter fun c => passesFilter fil c.1).foldl
        (fun gg c => addAmount gg c.1 c.2) g,
      t + ((costs.filter fun c => passesFilter fil c.1).map Prod.snd).sum) := by
  induction costs generalizing g t with
  | nil => simp
  | cons c rest ih =>
    cases h : passesFilter fil c.1 with
    | false => simp [List.filter_cons, h, ih]
    | true => simp [List.filter_cons, h, ih, add_assoc]

/-- The region loop of `get_database_instances` always succeeds and appends
each region's contribution to the accumulator. -/
theorem pipelineGo_ok {α β : Type} (enrich : String → α → β)
    (regions : List (String × Except Unit (List α))) (acc : List β) :
    pipelineGo enrich acc regions =
      .ok (acc ++ (regions.map (regionContribution enrich)).join) := by
  induction regions generalizing acc with
  | nil => simp [pipelineGo]
  | cons r rest ih =>
    cases hr : r.2 with
    | error e =>
      have hstep : pipelineGo enrich acc (r :: rest) = pipelineGo enrich acc rest := by
        simp only [pipelineGo]
        rw [hr]
        with_unfolding_all rfl
      rw [hstep, ih]
      simp [regionContribution, hr]
    | ok dbs =>
      have hstep : pipelineGo enrich acc (r :: rest) =
          pipelineGo enrich (acc ++ dbs.map (enrich r.1)) rest := by
        simp only [pipelineGo]
        rw [hr]
        with_unfolding_all rfl
      rw [hstep, ih]
      simp [regionContribution, hr, List.append_assoc]

/-! ## Claim theorems -/

/-- C1: when one region's instance-listing call throws, that region
contributes zero instances to the final result, every other region's
enriched instances still appear, and the run returns normally (`.ok`) — the
exception is not propagated to the caller. -/
theorem C1_region_failure_isolated {α β : Type} (enrich : String → α → β)
    (pre post : List (String × Except Unit (List α))) (failRegion : String) :
    getDatabaseInstancesE enrich (pre ++ (failRegion, Except.error ()) :: post) =
      Except.ok ((pre.map (regionContribution enrich)).join ++
        (post.map (regionContribution enrich)).join) := by
  rw [getDatabaseInstancesE, pipelineGo_ok]
  simp [regionContribution]

/-- C2 counterexample: a pricing lookup through the clean-architecture
variant `_get_instance_price` whose catalog yields no match under either
filter set returns the price 0 — not an unavailable marker — and the derived
30-day total cost computed from it is 0. -/
theorem C2_counterexample :
    getInstancePrice (.ok []) (.ok []) = 0 ∧
    getInstancePrice (.ok []) (.ok []) * 24 * 30 = 0 := by
  refine ⟨?_, ?_⟩ <;> with_unfolding_all decide

/-- C2 amended: the legacy `get_rds_price` behaves as claimed — `'N/A'` on a
raised call, an empty catalog, or when no price dimension parses strictly
positive, and a formatted price only for a strictly positive parsed price —
but the clean-architecture `_get_instance_price` instead returns
`Decimal('0')` on no match, malformed price string, or a raised call, so its
caller computes derived total costs from a zero price. -/
theorem C2_amended :
    (∀ e : Unit, getRdsPrice (.error e) = "N/A") ∧
    getRdsPrice (.ok []) = "N/A" ∧
    (∀ (item : PriceItem) (rest : List PriceItem),
      getRdsPrice (.ok (item :: rest)) = "N/A" ∨
      ∃ p : ℚ, 0 < p ∧ scanKeys item = some p ∧
        getRdsPrice (.ok (item :: rest)) = format4 p) ∧
    (∀ fb : Except Unit (List PriceItem), getInstancePrice (.error ()) fb = 0) ∧
    getInstancePrice (.ok []) (.error ()) = 0 ∧
    getInstancePrice (.ok []) (.ok []) = 0 ∧
    (∀ (rest : List TermKey) (dims : List String) (s : String),
      parseFloatQ s = none →
      getInstancePrice (.ok [(s :: dims) :: rest]) (.ok []) = 0) := by
  refine ⟨fun e => rfl, rfl, ?_, fun fb => rfl, rfl, rfl, ?_⟩
  · intro item rest
    cases h : scanKeys item with
    | none =>
      left
      simp [getRdsPrice, h]
    | some p =>
      right
      exact ⟨p, scanKeys_pos item p h, rfl, by simp [getRdsPrice, h]⟩
  · intro rest dims s hs
    simp [getInstancePrice, hs]

/-- C2 witness: the amended theorem applied at a malformed (decimal-comma)
price string. -/
theorem C2_amended_witness :
    parseFloatQ "1,5" = none ∧
    getInstancePrice (.ok [[["1,5"]]]) (.ok []) = 0 := by
  have h : parseFloatQ "1,5" = none := by with_unfolding_all decide
  exact ⟨h, C2_amended.2.2.2.2.2.2 [] [] "1,5" h⟩

/-- C3 code bug: the claim reserves 24 MiB = 25,165,824 bytes per connection
slot, but `get_max_connections` divides by 25,165,760 — despite its own
"24MB per connection" comment — and `_calculate_max_connections` uses 100
connections per GB; each diverges from the claimed
`min(floor(memory_gb * 2^30 / 25165824), 12000)` at a concrete input, while
0 and unknown memory do yield 0 and `'N/A'`. -/
theorem C3_divergent_constant :
    calculateMaxConnections 1 = 100 ∧
    claimedMaxConnections 1 = 42 ∧
    getMaxConnections (.num 1) = .val 42 ∧
    getMaxConnections (.num (147455625 / 524288)) = .val 12000 ∧
    claimedMaxConnections (147455625 / 524288) = 11999 ∧
    getMaxConnections (.num 0) = .val 0 ∧
    getMaxConnections .na = .na := by
  refine ⟨?_, ?_, ?_, by with_unfolding_all rfl, ?_, ?_, ?_⟩ <;> with_unfolding_all decide

/-- C4 counterexample: `_get_instance_metrics` yields the plain number 0 —
not an unavailable marker — when a metric's query returns no datapoints,
and when samples exist it averages only the strictly positive ones (the
average of [2, 0, 4] comes out 3, not 2). -/
theorem C4_counterexample :
    getInstanceMetricsOne (.ok []) = 0 ∧
    getInstanceMetricsOne (.ok [2, 0, 4]) = 3 ∧
    (2 + 0 + 4) / 3 ≠ (3 : ℚ) := by
  refine ⟨?_, ?_, ?_⟩ <;> with_unfolding_all decide

/-- C4 amended: in the legacy `get_rds_utilization` each of the four metrics
is `'N/A'` exactly when its `Values` list is empty and otherwise the
2-decimal-rounded average of all its samples, byte-valued metrics divided by
`2^30` first; one metric's values do not influence the other three, and a
raised query leaves all four `'N/A'`.  The `_get_instance_metrics` variant
instead defaults to the number 0 on no datapoints and on a raised per-metric
query, and averages only the strictly positive samples without rounding. -/
theorem C4_amended :
    (∀ b : Bool, processMetric b [] = .na) ∧
    (∀ (b : Bool) (x : ℚ) (xs : List ℚ),
      processMetric b (x :: xs) =
        .num (round2 ((x :: xs).sum / ((x :: xs).length : ℚ) /
          (if b then (2 : ℚ) ^ 30 else 1)))) ∧
    (∀ v : UtilizationValues,
      getRdsUtilization v =
        ⟨processMetric false v.cpu, processMetric false v.connections,
         processMetric true v.freeMemory, processMetric true v.freeStorage⟩) ∧
    (∀ cpu1 conns1 stor1 cpu2 conns2 stor2 mem : List ℚ,
      (getRdsUtilization ⟨cpu1, conns1, mem, stor1⟩).freeMemory =
        (getRdsUtilization ⟨cpu2, conns2, mem, stor2⟩).freeMemory) ∧
    (∀ conns1 mem1 stor1 conns2 mem2 stor2 cpu : List ℚ,
      (getRdsUtilization ⟨cpu, conns1, mem1, stor1⟩).cpu =
        (getRdsUtilization ⟨cpu, conns2, mem2, stor2⟩).cpu) ∧
    getRdsUtilizationRun (.error ()) = ⟨.na, .na, .na, .na⟩ ∧
    getInstanceMetricsOne (.ok []) = 0 ∧
    (∀ e : Unit, getInstanceMetricsOne (.error e) = 0) := by
  refine ⟨fun b => rfl, ?_, fun v => rfl, fun a b c d e f g => rfl,
    fun a b c d e f g => rfl, rfl, rfl, fun e => rfl⟩
  intro b x xs
  cases b <;> simp [processMetric]

/-- C5 counterexample: with numeric free memory and a numeric total of 0 the
legacy sizing evaluator reports "Memory: Calculation Error" — the caught
division error — and not "Memory: Insufficient Data". -/
theorem C5_counterexample :
    evalMemRepo (.num 1) (.num 0) = "Memory: Calculation Error" ∧
    "Memory: Calculation Error" ≠ "Memory: Insufficient Data" := by
  refine ⟨?_, ?_⟩ <;> with_unfolding_all decide

/-- C5 amended: an unavailable free or total value gives "Insufficient
Data"; a numeric total of exactly 0 gives "Memory: Calculation Error" in
the legacy evaluator (the `DatabaseMetrics.evaluate_memory` variant does
give "Insufficient Data" there); otherwise the free percentage is
classified at 5 and 15 with boundary values falling to the not-lower bucket
and the message carries the percentage to one decimal. -/
theorem C5_amended :
    (∀ v : PyVal, evalMemRepo .na v = "Memory: Insufficient Data") ∧
    (∀ v : PyVal, evalMemRepo v .na = "Memory: Insufficient Data") ∧
    (∀ f : ℚ, evalMemRepo (.num f) (.num 0) = "Memory: Calculation Error") ∧
    (∀ f t : ℚ, t ≠ 0 →
      evalMemRepo (.num f) (.num t) =
        (if f / t * 100 < 5 then
          "Memory: Critically Low (" ++ format1 (f / t * 100) ++ "% free)"
        else if f / t * 100 < 15 then
          "Memory: Low (" ++ format1 (f / t * 100) ++ "% free)"
        else "Memory: Optimal (" ++ format1 (f / t * 100) ++ "% free)")) ∧
    evalMemRepo (.num 5) (.num 100) = "Memory: Low (5.0% free)" ∧
    evalMemRepo (.num 15) (.num 100) = "Memory: Optimal (15.0% free)" ∧
    (∀ f : ℚ, evaluateMemoryVO f 0 = "Memory: Insufficient Data") := by
  refine ⟨?_, ?_, fun f => by simp [evalMemRepo], ?_,
    by with_unfolding_all decide, by with_unfolding_all decide,
    fun f => by simp [evaluateMemoryVO]⟩
  · intro v
    cases v <;> rfl
  · intro v
    cases v <;> rfl
  · intro f t ht
    simp [evalMemRepo, ht]

/-- C5 witness: the amended characterization applied at 2 GB free of 64 GB
total, about 3.1% free. -/
theorem C5_amended_witness :
    (64 : ℚ) ≠ 0 ∧
    evalMemRepo (.num 2) (.num 64) = "Memory: Critically Low (3.1% free)" := by
  have h64 : (64 : ℚ) ≠ 0 := by with_unfolding_all decide
  refine ⟨h64, (C5_amended.2.2.2.1 2 64 h64).trans ?_⟩
  with_unfolding_all decide

/-- C6 counterexample: at a numeric storage total of 0 the storage evaluator
returns "Storage: Calculation Error", not "Storage: Insufficient Data". -/
theorem C6_counterexample :
    evaluateStorageCA (.num 1) (.num 0) = "Storage: Calculation Error" ∧
    "Storage: Calculation Error" ≠ "Storage: Insufficient Data" := by
  refine ⟨?_, ?_⟩ <;> with_unfolding_all decide

/-- C6 amended: when the total storage is numerically 0 both storage
evaluators report the fixed string "Storage: Calculation Error" — not a
numeric classification and, the functions being total, not a crash;
"Insufficient Data" is reserved for non-numeric (unavailable) inputs. -/
theorem C6_amended :
    (∀ f : ℚ, evaluateStorageCA (.num f) (.num 0) = "Storage: Calculation Error") ∧
    (∀ f : ℚ, evalStorageRepo (.num f) (.num 0) = "Storage: Calculation Error") ∧
    (∀ v : PyVal, evaluateStorageCA .na v = "Storage: Insufficient Data") ∧
    (∀ v : PyVal, evaluateStorageCA v .na = "Storage: Insufficient Data") := by
  refine ⟨fun f => by simp [evaluateStorageCA], fun f => by simp [evalStorageRepo], ?_, ?_⟩
  · intro v
    cases v <;> rfl
  · intro v
    cases v <;> rfl

/-- C7 counterexample: on a malformed memory string `_convert_to_gb` returns
the Python int `0` — a value numerically equal to 0, not an unavailable
marker. -/
theorem C7_counterexample :
    convertToGb "garbage" = .pyIntZero ∧
    (convertToGb "garbage").value = 0 := by
  refine ⟨?_, ?_⟩ <;> with_unfolding_all decide

/-- C7 amended: the parse behaves as claimed on the unit grammar — leading
numeric token with commas stripped, GiB default, MiB divides by 1024, TiB
multiplies by 1024 — but a malformed string returns the Python int `0`
(numerically 0); it is the caller `get_instance_specs` that turns this int,
via its `isinstance(memory_gb, float)` check, into the `'N/A'` marker. -/
theorem C7_amended :
    convertToGb "64 GiB" = .pyFloat 64 ∧
    convertToGb "64" = .pyFloat 64 ∧
    convertToGb "1 TiB" = .pyFloat 1024 ∧
    convertToGb "512 MiB" = .pyFloat (1 / 2) ∧
    convertToGb "1,024 GiB" = .pyFloat 1024 ∧
    (∀ s : String,
      (convertToGb s = .pyIntZero ∧ specsMemoryField s = .na) ∨
      ∃ q : ℚ, convertToGb s = .pyFloat q ∧ specsMemoryField s = .num (round2 q)) := by
  refine ⟨by with_unfolding_all decide, by with_unfolding_all decide,
    by with_unfolding_all decide, by with_unfolding_all decide,
    by with_unfolding_all decide, ?_⟩
  intro s
  cases h : convertToGb s with
  | pyIntZero =>
    left
    exact ⟨rfl, by simp [specsMemoryField, h]⟩
  | pyFloat q =>
    right
    exact ⟨q, rfl, by simp [specsMemoryField, h]⟩

/-- C8 counterexample: on an empty billing feed the output is empty — it has
no TOTAL row — and for the item (S3, 10) over a 3-day window the emitted
daily average is the rounded 3.33, not the exact 10/3. -/
theorem C8_counterexample :
    analyzeCosts 10 none [] = [] ∧
    analyzeCosts 3 none [("S3", 10)] =
      [CostRow.mk "S3" 10 (333 / 100), CostRow.mk "TOTAL" 10 (333 / 100)] ∧
    (333 / 100 : ℚ) ≠ 10 / 3 := by
  refine ⟨?_, ?_, ?_⟩ <;> with_unfolding_all decide

/-- C8 helper: `analyze_costs` in terms of the grouping of included items. -/
theorem analyzeCosts_eq (days : ℕ) (fil : Option (List String))
    (costs : List (String × ℚ)) :
    analyzeCosts days fil costs =
      (if ((includedGroups fil costs).map
            (fun g => CostRow.mk g.1 g.2 (round2 (g.2 / (days : ℚ))))).isEmpty then
        (includedGroups fil costs).map
          (fun g => CostRow.mk g.1 g.2 (round2 (g.2 / (days : ℚ))))
      else
        (includedGroups fil costs).map
          (fun g => CostRow.mk g.1 g.2 (round2 (g.2 / (days : ℚ)))) ++
        [CostRow.mk "TOTAL" ((includedGroups fil costs).map Prod.snd).sum
          (round2 ((((includedGroups fil costs).map Prod.snd).sum) / (days : ℚ)))]) := by
  unfold analyzeCosts
  rw [analyzeCosts_foldl_eq]
  have hsum : ((costs.filter fun c => passesFilter fil c.1).map Prod.snd).sum =
      ((includedGroups fil costs).map Prod.snd).sum := by
    rw [includedGroups, foldl_addAmount_sum]
    simp
  simp only [includedGroups, hsum, zero_add]

/-- C8 amended: whenever at least one line item passes the filter, the
output is the per-service rows followed by a synthetic TOTAL row whose value
is exactly the sum of the per-service totals; every row's daily average is
`round(total / window_days, 2)` — the 2-decimal rounding of the quotient,
not the exact quotient; with no included items the output is empty and
carries no TOTAL row.  (`Decimal`-to-float conversions are modelled as
exact.) -/
theorem C8_amended (days : ℕ) (fil : Option (List String))
    (costs : List (String × ℚ)) (hdays : 0 < days) :
    (includedGroups fil costs = [] ∧ analyzeCosts days fil costs = []) ∨
    analyzeCosts days fil costs =
      (includedGroups fil costs).map
        (fun g => CostRow.mk g.1 g.2 (round2 (g.2 / (days : ℚ)))) ++
      [CostRow.mk "TOTAL" ((includedGroups fil costs).map Prod.snd).sum
        (round2 ((((includedGroups fil costs).map Prod.snd).sum) / (days : ℚ)))] := by
  cases hg : includedGroups fil costs with
  | nil =>
    left
    refine ⟨rfl, ?_⟩
    rw [analyzeCosts_eq, hg]
    simp
  | cons g gs =>
    right
    rw [analyzeCosts_eq, hg]
    simp

/-- C8 witness: the amended theorem applied to the billing feed
{S3: 10, S3: 5, EC2: 20} over a 10-day window. -/
theorem C8_amended_witness :
    0 < 10 ∧
    ((includedGroups none [("S3", 10), ("S3", 5), ("EC2", 20)] = [] ∧
      analyzeCosts 10 none [("S3", 10), ("S3", 5), ("EC2", 20)] = []) ∨
    analyzeCosts 10 none [("S3", 10), ("S3", 5), ("EC2", 20)] =
      (includedGroups none [("S3", 10), ("S3", 5), ("EC2", 20)]).map
        (fun g => CostRow.mk g.1 g.2 (round2 (g.2 / (10 : ℚ)))) ++
      [CostRow.mk "TOTAL"
        ((includedGroups none [("S3", 10), ("S3", 5), ("EC2", 20)]).map Prod.snd).sum
        (round2 ((((includedGroups none
          [("S3", 10), ("S3", 5), ("EC2", 20)]).map Prod.snd).sum) / (10 : ℚ)))]) :=
  ⟨by decide, C8_amended 10 none [("S3", 10), ("S3", 5), ("EC2", 20)] (by decide)⟩

/-- C9: `normalize_engine` is idempotent on every key and every value of the
fixed engine-mapping table (first-substring-wins over the lower-cased input,
unmatched engines passing through unchanged). -/
theorem C9_normalize_engine_idempotent :
    ((ENGINE_MAPPING.map Prod.fst ++ ENGINE_MAPPING.map Prod.snd).all fun x =>
      normalizeEngine (normalizeEngine x) == normalizeEngine x) = true := by
  with_unfolding_all decide

/-- C10 counterexample: a catalog entry whose first price dimension parses
to 0 still yields a price — the scan moves on to the next dimension — so the
result is "2.5000" rather than the unavailable marker. -/
theorem C10_counterexample :
    parseFloatQ ("0".replace "," ".") = some 0 ∧
    getRdsPrice (.ok [[["0", "2.5"]]]) = "2.5000" ∧
    "2.5000" ≠ "N/A" := by
  refine ⟨?_, ?_, ?_⟩ <;> with_unfolding_all decide

/-- C10 amended: `get_rds_price` returns the first price dimension, across
the on-demand keys in iteration order, whose parsed price is strictly
positive, formatted to exactly four decimals; it returns `'N/A'` exactly
when no dimension parses strictly positive — so an entry whose dimensions
all parse to 0 or negative values is indistinguishable from a lookup
failure. -/
theorem C10_amended :
    (∀ (item : PriceItem) (rest : List PriceItem),
      getRdsPrice (.ok (item :: rest)) =
        ((posParses item).head?.map format4).getD "N/A") ∧
    getRdsPrice (.ok [[["0"]]]) = getRdsPrice (.ok []) := by
  constructor
  · intro item rest
    simp only [getRdsPrice, scanKeys_eq_head]
    cases h : (posParses item).head? with
    | none => simp [h]
    | some p => simp [h]
  · with_unfolding_all decide

end AwsCostAnalyzer
